import Mathlib

/-!
Verification of the SE4AS PoultryFarmManager control system.

Shallow embedding of the Python sources:
  * `src/planner/planner_service.py`  (per-zone planner: rate limits,
    refill and heater hysteresis, action building),
  * `src/common/config.py`            (topology loading),
  * `src/monitor/monitor_service.py`  (sensor-message → Knowledge writes),
  * `src/environment/model.py`        (per-zone physics simulator),
  * `src/src/planner/Computation.py`  (starvation-aware variant planner).

Python floats are modelled as `ℚ`; `time.time()` and `datetime.now()`
results are passed in explicitly; the module-level mutable dictionaries
keyed by `(farm, zone, actuator)` are modelled as explicit optional
previous-state arguments (a `.get(key, default)` becomes `Option.getD`).
-/

namespace Poultry

/-- Python `max(lo, min(hi, v))` as written in `_clamp` of
`environment/model.py` (and inline in the planner). -/
def clamp (v lo hi : ℚ) : ℚ := max lo (min hi v)

/-- Python `int()` applied to a float: truncation toward zero. -/
def pyInt (x : ℚ) : ℤ := if 0 ≤ x then ⌊x⌋ else ⌈x⌉

theorem clamp_le {v lo hi : ℚ} (h : lo ≤ hi) : clamp v lo hi ≤ hi := by
  simp only [clamp, max_le_iff]
  exact ⟨h, min_le_left _ _⟩

theorem le_clamp (v lo hi : ℚ) : lo ≤ clamp v lo hi := le_max_left _ _

/-! ## Planner service helpers (`src/planner/planner_service.py`)

`_rate_limit`, `_hysteresis_state` and `_heater_on_state` read and write
module-level dictionaries.  Each is embedded as a pure function taking the
previous per-key entries (`none` when the key is absent, mirroring
`dict.get(key, default)`) and the current wall-clock time `now`. -/

/-- `_rate_limit` (planner_service.py lines 21–36).  Returns the emitted
level; the dictionaries are updated to `(result, now)`. -/
def rate_limit (prevLevel prevTs : Option ℚ) (now target maxRatePerMin : ℚ) : ℚ :=
  let prev := prevLevel.getD target
  let prev_ts := prevTs.getD now
  let dt := max (1/10) (now - prev_ts)
  let maxDelta := maxRatePerMin * (dt / 60)
  if target > prev + maxDelta then prev + maxDelta
  else if target < prev - maxDelta then prev - maxDelta
  else target

/-- `_hysteresis_state` (planner_service.py lines 39–56): Schmitt-trigger
refill latch.  `prev` is the stored latch (absent key ⇒ `false`); the
returned Bool is both the function's return value and the stored latch
afterwards (on a missing `value` the store is left untouched, which equals
the returned previous state). -/
def hysteresis_state (prev : Option Bool) (value : Option ℚ) (low high : ℚ) : Bool :=
  let state := prev.getD false
  match value with
  | none => state
  | some v =>
    if v ≤ low then true
    else if v ≥ high then false
    else state

/-- Latch states produced by feeding a trajectory of readings through
`_hysteresis_state` one by one, starting from an absent latch entry. -/
def hysteresis_run (values : List (Option ℚ)) (low high : ℚ) : List Bool :=
  (values.foldl
    (fun (acc : List Bool × Option Bool) v =>
      let s := hysteresis_state acc.2 v low high
      (acc.1 ++ [s], some s))
    ([], none)).1

/-- `_heater_on_state` (planner_service.py lines 59–78).  `prevState` and
`prevSwitch` are the per-zone dictionary entries (`none` when the zone has
never been seen; the switch timestamp then defaults to `now`).  Returns the
new latch value and the new switch timestamp.  `temp` is never `None` at
the single call site (guarded by `if temp is not None`). -/
def heater_on_state (prevState : Option Bool) (prevSwitch : Option ℚ)
    (now temp setpoint deadband min_on_s min_off_s : ℚ) : Bool × ℚ :=
  let last_state := prevState.getD false
  let last_switch := prevSwitch.getD now
  if last_state then
    if temp ≥ setpoint + deadband ∧ now - last_switch ≥ min_on_s then
      (false, now)
    else (true, last_switch)
  else
    if temp ≤ setpoint - deadband ∧ now - last_switch ≥ min_off_s then
      (true, now)
    else (false, last_switch)

/-- C7: the refill latch is a monotone Schmitt trigger — with coherent
thresholds (low < high) it turns on when the value is ≤ low, turns off when
the value is ≥ high, otherwise (and on a missing value) keeps its previous
state; and from off, the feed trajectory [2.0, 1.4, 1.0, 1.8, 2.6] with
low = 1.5, high = 2.5 yields the states OFF, ON, ON, ON, OFF. -/
theorem c7_refill_schmitt_trigger :
    (∀ (prev : Option Bool) (v low high : ℚ), low < high →
      (v ≤ low → hysteresis_state prev (some v) low high = true)
      ∧ (high ≤ v → hysteresis_state prev (some v) low high = false)
      ∧ (low < v → v < high → hysteresis_state prev (some v) low high = prev.getD false)
      ∧ hysteresis_state prev none low high = prev.getD false)
    ∧ hysteresis_run [some 2, some (7/5), some 1, some (9/5), some (13/5)] (3/2) (5/2)
        = [false, true, true, true, false] := by
  constructor
  · intro prev v low high hlh
    refine ⟨fun h => ?_, fun h => ?_, fun h1 h2 => ?_, rfl⟩
    · simp [hysteresis_state, h]
    · have : ¬ v ≤ low := by linarith
      simp [hysteresis_state, this, h]
    · have h1' : ¬ v ≤ low := by linarith
      have h2' : ¬ v ≥ high := by linarith
      simp [hysteresis_state, h1', h2']
  · norm_num [hysteresis_run, hysteresis_state, List.foldl]

/-- C7 witness: the latch turns on at value 1 with thresholds 1.5/2.5. -/
theorem c7_refill_schmitt_trigger_witness :
    hysteresis_state none (some 1) (3/2) (5/2) = true :=
  (c7_refill_schmitt_trigger.1 none 1 (3/2) (5/2) (by norm_num)).1 (by norm_num)

/-- C6 counterexample: two emissions at the same timestamp (Δt = 0): the
previous level is 20 (stored at t = 0), the new target at t = 0 is 80 with
rate limit 80 %/min; `_rate_limit` floors dt at 0.1 s and emits
20 + 80·(0.1/60) = 302/15 ≠ 20, so |level_new − level_old| = 2/15 exceeds
rate·Δt/60 = 0, refuting the claimed bound. -/
theorem c6_rate_limit_counterexample :
    rate_limit (some 20) (some 0) 0 80 80 = 302/15
    ∧ ¬ |rate_limit (some 20) (some 0) 0 80 80 - 20| ≤ 80 * ((0 - 0) / 60) := by
  constructor
  · norm_num [rate_limit]
  · norm_num [rate_limit, abs_le]

/-- C6 amended: consecutive emissions for the same (farm, zone, actuator)
satisfy |level_new − level_old| ≤ rate_limit_per_min · max(0.1, Δt) / 60
(the code floors the elapsed time at 0.1 s; for Δt ≥ 0.1 s this is the
claimed bound); in particular with last emitted fan level 20 at t = 0, a
computed target of 80 at t = 30 s and fan_rate_limit_per_min = 80 the
emitted value is 60. -/
theorem c6_rate_limit_bound :
    (∀ (p ts now target rate : ℚ), 0 ≤ rate →
      |rate_limit (some p) (some ts) now target rate - p| ≤
        rate * max (1/10) (now - ts) / 60)
    ∧ rate_limit (some 20) (some 0) 30 80 80 = 60 := by
  constructor
  · intro p ts now target rate hrate
    have hdt : (1:ℚ)/10 ≤ max (1/10) (now - ts) := le_max_left _ _
    have hmd : 0 ≤ rate * (max (1/10) (now - ts) / 60) := by positivity
    simp only [rate_limit, Option.getD_some]
    split_ifs with h1 h2
    · rw [add_sub_cancel_left, abs_of_nonneg hmd, mul_div_assoc]
    · rw [sub_sub_cancel_left, abs_neg, abs_of_nonneg hmd, mul_div_assoc]
    · rw [abs_le, mul_div_assoc]
      constructor <;> linarith
  · norm_num [rate_limit]

/-- C6 witness: the rate-limit bound instantiated at the scenario values. -/
theorem c6_rate_limit_bound_witness :
    |rate_limit (some 20) (some 0) 30 80 80 - 20| ≤ 80 * max (1/10) (30 - 0) / 60 :=
  c6_rate_limit_bound.1 20 0 30 80 80 (by norm_num)

/-- C5 counterexample: on the very first decision for a zone (no stored
latch, no stored switch time) with T = 18 ≤ setpoint − deadband
(26 − 0.4) and min_off_s = 60, the off→on transition does NOT fire: the
last-switch timestamp defaults to `now`, so the elapsed time counts as 0
and the dwell check 0 ≥ 60 fails — the latch stays off, refuting the
claimed first-decision dwell bypass. -/
theorem c5_heater_first_decision_counterexample :
    (heater_on_state none none 1000 18 26 (2/5) 60 60).1 = false := by
  norm_num [heater_on_state]

/-- C5 amended: the heater latch flips from on to off exactly when
T ≥ setpoint + deadband and the time since the last switch is ≥ min_on_s,
and from off to on exactly when T ≤ setpoint − deadband and the time since
the last switch is ≥ min_off_s; on the very first decision for a zone the
last-switch timestamp is initialised to the current time, so the elapsed
time counts as 0 and the off→on transition fires exactly when
min_off_s ≤ 0 — there is no dwell bypass. -/
theorem c5_heater_hysteresis_latch (s : Bool) (ts now temp sp db mon moff : ℚ) :
    (s = true →
      ((heater_on_state (some s) (some ts) now temp sp db mon moff).1 = false ↔
        sp + db ≤ temp ∧ mon ≤ now - ts))
    ∧ (s = false →
      ((heater_on_state (some s) (some ts) now temp sp db mon moff).1 = true ↔
        temp ≤ sp - db ∧ moff ≤ now - ts))
    ∧ ((heater_on_state none none now temp sp db mon moff).1 = true ↔
        temp ≤ sp - db ∧ moff ≤ 0) := by
  refine ⟨fun hs => ?_, fun hs => ?_, ?_⟩
  · subst hs
    simp only [heater_on_state, Option.getD_some, if_true]
    split_ifs with h
    · exact iff_of_true rfl ⟨h.1, h.2⟩
    · exact iff_of_false (by simp) (fun hc => h ⟨hc.1, hc.2⟩)
  · subst hs
    simp only [heater_on_state, Option.getD_some, Bool.false_eq_true, if_false]
    split_ifs with h
    · exact iff_of_true rfl ⟨h.1, h.2⟩
    · exact iff_of_false (by simp) (fun hc => h ⟨hc.1, hc.2⟩)
  · simp only [heater_on_state, Option.getD_none, Bool.false_eq_true, if_false]
    split_ifs with h
    · exact iff_of_true rfl ⟨h.1, by simpa using h.2⟩
    · exact iff_of_false (by simp) (fun hc => h ⟨hc.1, by simpa using hc.2⟩)

/-- C5 witness: the on→off flip at T = 30 ≥ 26 + 0.4 after 100 s ≥ 60 s. -/
theorem c5_heater_hysteresis_latch_witness :
    (heater_on_state (some true) (some 0) 100 30 26 (2/5) 60 60).1 = false :=
  ((c5_heater_hysteresis_latch true 0 100 30 26 (2/5) 60 60).1 rfl).mpr (by norm_num)

/-! ## Topology document and config resolution (`src/common/config.py`)

The topology document `system_config.json` has shape
`{"farms": [{"id": str, "zones": [str | {"id": str, "config": {...}}],
"config": {...}?}], "defaults": {...}?}`.  Flat scalar config values are
modelled as `ℚ`. -/

/-- Flat scalar key→value map of a `config` subtree. -/
abbrev ConfigMap := List (String × ℚ)

/-- One entry of a farm's `zones` list: a bare zone-id string or an object
with an `id` and a `config` subtree. -/
inductive ZoneEntry where
  | bare (zid : String)
  | withConfig (zid : String) (config : ConfigMap)
deriving DecidableEq

/-- Zone id of a `zones` entry. -/
def ZoneEntry.zoneId : ZoneEntry → String
  | .bare i => i
  | .withConfig i _ => i

/-- Config subtree of a `zones` entry (a bare string has none). -/
def ZoneEntry.cfgMap : ZoneEntry → ConfigMap
  | .bare _ => []
  | .withConfig _ c => c

/-- One farm object of the topology document. -/
structure Farm where
  id : String
  zones : List ZoneEntry
  config : ConfigMap
deriving DecidableEq

/-- The parsed topology document. -/
structure SystemConfig where
  farms : List Farm
  defaults : ConfigMap
deriving DecidableEq

/-- The hard-coded topology `load_system_config` substitutes on any load
failure: `{"farms": [{"id": FARM_ID, "zones": [ZONE_ID]}]}`. -/
def fallbackTopology (farmId zoneId : String) : SystemConfig :=
  ⟨[⟨farmId, [ZoneEntry.bare zoneId], []⟩], []⟩

/-- `load_system_config` (common/config.py lines 51–57).  Opening and JSON
parsing are abstracted as an `Option SystemConfig` argument (`none` when
`open` or `json.load` raises); the `except` branch returns the hard-coded
single-farm fallback topology built from the FARM_ID/ZONE_ID env values. -/
def load_system_config (farmId zoneId : String) (parsed : Option SystemConfig) : SystemConfig :=
  match parsed with
  | some cfg => cfg
  | none => fallbackTopology farmId zoneId

/-- Topology reload step inside the planner's `on_message`
(planner_service.py lines 309–318): when the 5 s throttle window has
passed and `os.path.exists` holds, the stored topology is replaced by the
result of `load_system_config`; otherwise the previous one is kept. -/
def planner_config_reload (prev : SystemConfig) (throttleOk fileExists : Bool)
    (farmId zoneId : String) (parsed : Option SystemConfig) : SystemConfig :=
  if throttleOk && fileExists then load_system_config farmId zoneId parsed else prev

/-- C9 counterexample: the planner holds a previously parsed two-farm
topology; the topology file exists but is momentarily unparseable
(`json.load` raises, modelled as `parsed = none`).  The reload replaces
the effective topology with the hard-coded single-farm fallback instead of
retaining the previous topology. -/
theorem c9_parse_failure_counterexample :
    planner_config_reload
        ⟨[⟨"farmA", [ZoneEntry.bare "z1"], []⟩, ⟨"farmB", [ZoneEntry.bare "z2"], []⟩], []⟩
        true true "farm1" "zone1" none
      ≠ ⟨[⟨"farmA", [ZoneEntry.bare "z1"], []⟩, ⟨"farmB", [ZoneEntry.bare "z2"], []⟩], []⟩ := by
  decide

/-- C9 amended: on any load failure `load_system_config` returns the
hard-coded fallback topology `{"farms": [{"id": FARM_ID, "zones":
[ZONE_ID]}]}` rather than the last successfully parsed topology; the
planner's reader keeps the previous topology only when the file is missing
(the `os.path.exists` guard) or the 5 s reload throttle has not expired —
when the file exists but is unparseable the effective topology becomes the
fallback. -/
theorem c9_parse_failure_fallback (prev : SystemConfig) (throttleOk : Bool)
    (farmId zoneId : String) (parsed : Option SystemConfig) :
    load_system_config farmId zoneId none = fallbackTopology farmId zoneId
    ∧ planner_config_reload prev throttleOk false farmId zoneId parsed = prev
    ∧ planner_config_reload prev true true farmId zoneId none
        = fallbackTopology farmId zoneId := by
  refine ⟨rfl, ?_, rfl⟩
  simp [planner_config_reload]

/-- Modelled from the spec: `get_config(key, config, farm, zone, default)`
is imported from `common.config` by `planner_service.py` and
`analyzer_service.py` but its definition is absent from
`src/common/config.py`; per the spec it "answers `get(key, farm, zone)`
with precedence zone → farm → global defaults" and "Resolution precedence:
zone > farm > defaults > hard-coded fallback", over the topology document
shape of §6 (the hard-coded fallback being the caller-supplied default). -/
def get_config (key : String) (cfg : SystemConfig) (farm zone : String)
    (deflt : Option ℚ) : Option ℚ :=
  match cfg.farms.find? (fun f => f.id = farm) with
  | none =>
    match cfg.defaults.lookup key with
    | some v => some v
    | none => deflt
  | some f =>
    match (f.zones.find? (fun z => z.zoneId = zone)).bind (fun z => z.cfgMap.lookup key) with
    | some v => some v
    | none =>
      match f.config.lookup key with
      | some v => some v
      | none =>
        match cfg.defaults.lookup key with
        | some v => some v
        | none => deflt

/-- Value set for `key` at zone level for (farm, zone), if any. -/
def zoneLevelValue (key : String) (cfg : SystemConfig) (farm zone : String) : Option ℚ :=
  (cfg.farms.find? (fun f => f.id = farm)).bind
    (fun f => ((f.zones.find? (fun z => z.zoneId = zone)).bind
      (fun z => z.cfgMap.lookup key)))

/-- Value set for `key` at farm level for `farm`, if any. -/
def farmLevelValue (key : String) (cfg : SystemConfig) (farm : String) : Option ℚ :=
  (cfg.farms.find? (fun f => f.id = farm)).bind (fun f => f.config.lookup key)

/-- Value set for `key` in the document's global `defaults`, if any. -/
def defaultLevelValue (key : String) (cfg : SystemConfig) : Option ℚ :=
  cfg.defaults.lookup key

/-- Characterisation: `get_config` is the or-chain of the three lookup
levels followed by the caller-supplied fallback. -/
theorem get_config_or_chain (key : String) (cfg : SystemConfig) (farm zone : String)
    (deflt : Option ℚ) :
    get_config key cfg farm zone deflt =
      (((zoneLevelValue key cfg farm zone).or (farmLevelValue key cfg farm)).or
        (defaultLevelValue key cfg)).or deflt := by
  rcases hf : cfg.farms.find? (fun f => f.id = farm) with _ | f
  · cases hd : cfg.defaults.lookup key <;>
      simp [get_config, zoneLevelValue, farmLevelValue, defaultLevelValue, hf, hd]
  · rcases hz : (f.zones.find? (fun z => z.zoneId = zone)).bind
        (fun z => z.cfgMap.lookup key) with _ | v
    · cases hfc : f.config.lookup key
      · cases hd : cfg.defaults.lookup key <;>
          simp [get_config, zoneLevelValue, farmLevelValue, defaultLevelValue, hf, hz, hfc, hd]
      · simp [get_config, zoneLevelValue, farmLevelValue, defaultLevelValue, hf, hz, hfc]
    · simp [get_config, zoneLevelValue, farmLevelValue, defaultLevelValue, hf, hz]

/-- C2: `get_config(key, config, farm, zone, default)` returns the
zone-level value when the key is set for that zone; otherwise the
farm-level value; otherwise the global default from the topology document;
otherwise the hard-coded (caller-supplied) fallback. -/
theorem c2_get_config_precedence (key : String) (cfg : SystemConfig)
    (farm zone : String) (deflt : Option ℚ) :
    (∀ v, zoneLevelValue key cfg farm zone = some v →
      get_config key cfg farm zone deflt = some v)
    ∧ (zoneLevelValue key cfg farm zone = none →
        ∀ v, farmLevelValue key cfg farm = some v →
          get_config key cfg farm zone deflt = some v)
    ∧ (zoneLevelValue key cfg farm zone = none →
        farmLevelValue key cfg farm = none →
        ∀ v, defaultLevelValue key cfg = some v →
          get_config key cfg farm zone deflt = some v)
    ∧ (zoneLevelValue key cfg farm zone = none →
        farmLevelValue key cfg farm = none →
        defaultLevelValue key cfg = none →
        get_config key cfg farm zone deflt = deflt) := by
  refine ⟨fun v hv => ?_, fun hz v hv => ?_, fun hz hf v hv => ?_, fun hz hf hd => ?_⟩ <;>
    simp [get_config_or_chain, *]

/-- C2 witness: a concrete topology where the key is set at zone level;
`get_config` returns the zone-level value. -/
theorem c2_get_config_precedence_witness :
    get_config "temp_setpoint"
        ⟨[⟨"farm1", [ZoneEntry.withConfig "zone1" [("temp_setpoint", 24)]],
           [("temp_setpoint", 25)]⟩], [("temp_setpoint", 26)]⟩
        "farm1" "zone1" (some 27) = some 24 :=
  (c2_get_config_precedence "temp_setpoint"
      ⟨[⟨"farm1", [ZoneEntry.withConfig "zone1" [("temp_setpoint", 24)]],
         [("temp_setpoint", 25)]⟩], [("temp_setpoint", 26)]⟩
      "farm1" "zone1" (some 27)).1 24 (by decide)

/-! ## Monitor (`src/monitor/monitor_service.py`)

The monitor turns accepted sensor-bus messages into InfluxDB points.  A
point is modelled as its measurement name, its ordered tag list and its
single `value` field; the JSON payload is modelled as the map of its
numeric fields. -/

/-- An InfluxDB point as constructed in the monitor's `on_message`. -/
structure Point where
  measurement : String
  tags : List (String × String)
  value : ℚ
deriving DecidableEq

/-- Decoded JSON payload of a sensor message (numeric fields only; the
monitor reads only numeric primitive fields). -/
abbrev SensorPayload := List (String × ℚ)

/-- Measurement name for sensor readings (`SENSOR_MEASUREMENT`). -/
def SENSOR_MEASUREMENT : String := "sensors"

/-- Helper of the embedding: the point the monitor builds for one present
payload field — tagged with the zone and the sensor type only. -/
def monitorPoint (zone sensorType : String) (v : ℚ) : Point :=
  ⟨SENSOR_MEASUREMENT, [("zone", zone), ("type", sensorType)], v⟩

/-- Helper of the embedding: `if field is not None: points.append(...)` —
the sub-list of points contributed by one optional payload field. -/
def optPoint (zone sensorType : String) (o : Option ℚ) : List Point :=
  match o with
  | some v => [monitorPoint zone sensorType v]
  | none => []

theorem optPoint_no_farm_tag (zone st : String) (o : Option ℚ) :
    ∀ p ∈ optPoint zone st o, p.tags.lookup "farm" = none := by
  cases o with
  | none => simp [optPoint]
  | some v =>
    intro p hp
    simp only [optPoint, List.mem_singleton] at hp
    subst hp
    simp [monitorPoint]

/-- `on_message` of the monitor (monitor_service.py lines 19–96), after a
successful JSON decode; `parts` is the topic already split on `/`
(`msg.topic.split("/")`).  A topic without exactly 4 segments or with an
unknown group is dropped (`none`).  The farm segment is discarded by the
tuple unpacking `_, zone, _, sensor_type = parts`, and each point is
tagged with `zone` and `type` only. -/
def monitor_on_message (parts : List String) (data : SensorPayload) : Option (List Point) :=
  if parts.length = 4 then
    let zone := parts.getD 1 ""
    let sensor_type := parts.getD 3 ""
    if sensor_type = "air" then
      some (optPoint zone "temperature" (data.lookup "temperature_c") ++
            optPoint zone "co2" (data.lookup "co2_ppm") ++
            optPoint zone "ammonia" (data.lookup "nh3_ppm"))
    else if sensor_type = "feed_level" then
      some (optPoint zone "feed_level" (data.lookup "feed_kg"))
    else if sensor_type = "water_level" then
      some (optPoint zone "water_level" (data.lookup "water_l"))
    else if sensor_type = "activity" then
      some (optPoint zone "activity" (data.lookup "activity"))
    else none
  else none

/-- C1 divergence: no point the monitor ever writes carries a "farm" tag,
and at the failing input (topic `farm1/zone1/sensors/air`, payload
`{"temperature_c": 25.0}`) the single written reading is tagged with the
zone and the sensor type only — contradicting the claim that every written
reading is tagged with the farm of the originating topic (and the
Knowledge reader `get_latest_sensor_value`, which filters on the farm
tag). -/
theorem c1_monitor_writes_lack_farm_tag :
    (∀ (parts : List String) (data : SensorPayload) (points : List Point),
      monitor_on_message parts data = some points →
        ∀ p ∈ points, p.tags.lookup "farm" = none)
    ∧ monitor_on_message ["farm1", "zone1", "sensors", "air"] [("temperature_c", 25)]
        = some [⟨"sensors", [("zone", "zone1"), ("type", "temperature")], 25⟩] := by
  constructor
  · intro parts data points hsome p hp
    simp only [monitor_on_message] at hsome
    split_ifs at hsome
    all_goals first
      | exact Option.noConfusion hsome
      | (rw [Option.some_inj] at hsome; subst hsome;
         simp only [List.mem_append] at hp;
         rcases hp with (hp | hp) | hp <;> exact optPoint_no_farm_tag _ _ _ _ hp)
      | (rw [Option.some_inj] at hsome; subst hsome;
         exact optPoint_no_farm_tag _ _ _ _ hp)
  · rfl

/-- C1 witness: the no-farm-tag property applied at the failing input. -/
theorem c1_monitor_writes_lack_farm_tag_witness :
    ∀ p ∈ [Point.mk "sensors" [("zone", "zone1"), ("type", "temperature")] 25],
      p.tags.lookup "farm" = none :=
  c1_monitor_writes_lack_farm_tag.1 ["farm1", "zone1", "sensors", "air"]
    [("temperature_c", 25)]
    [⟨"sensors", [("zone", "zone1"), ("type", "temperature")], 25⟩]
    c1_monitor_writes_lack_farm_tag.2

/-! ## Planner action builder (`src/planner/planner_service.py`)

`_build_actions_from_status` reads a decoded status dict and the resolved
per-zone configuration (every `cfg(key)` call coerced through `float`,
modelled as a structure of resolved `ℚ` parameters), consults the per-zone
dictionary slices, and produces the action list. -/

/-- Status-message fields read by the planner (each via `status.get`). -/
structure ZoneStatusMsg where
  temperature_c : Option ℚ
  co2_ppm : Option ℚ
  nh3_ppm : Option ℚ
  feed_kg : Option ℚ
  water_l : Option ℚ
  activity : Option ℚ

/-- The configuration parameters `_build_actions_from_status` resolves via
`get_config` and coerces with `float(...)` (planner_service.py lines
91–133). -/
structure PlannerConfig where
  temp_setpoint : ℚ
  co2_setpoint : ℚ
  nh3_threshold : ℚ
  co2_max : ℚ
  fan_kp_temp : ℚ
  fan_kp_co2 : ℚ
  fan_max : ℚ
  fan_min : ℚ
  heater_kp_temp : ℚ
  heater_deadband_c : ℚ
  heater_min_on_s : ℚ
  heater_min_off_s : ℚ
  heater_min_level : ℚ
  heater_min_fan : ℚ
  fan_min_vent_pct : ℚ
  inlet_min_pct : ℚ
  fan_cold_max_pct : ℚ
  inlet_cold_max_pct : ℚ
  cold_vent_delta_c : ℚ
  light_activity_high : ℚ
  activity_min : ℚ
  light_min_day_pct : ℚ
  light_min_night_pct : ℚ
  lights_on_h : ℚ
  lights_off_h : ℚ
  fan_rate_limit_per_min : ℚ
  heater_rate_limit_per_min : ℚ
  inlet_rate_limit_per_min : ℚ
  light_rate_limit_per_min : ℚ
  feed_threshold : ℚ
  water_threshold : ℚ
  feed_refill_low_kg : ℚ
  feed_refill_high_kg : ℚ
  water_refill_low_l : ℚ
  water_refill_high_l : ℚ

/-- Per-(farm, zone) slices of the planner's module-level dictionaries
(`_LAST_LEVELS`/`_LAST_TS` per actuator, `_REFILL_STATE` per feed/water,
`_HEATER_STATE`/`_HEATER_SWITCH_TS`). -/
structure PlannerZoneState where
  fanPrev : Option ℚ
  fanPrevTs : Option ℚ
  heaterPrev : Option ℚ
  heaterPrevTs : Option ℚ
  inletPrev : Option ℚ
  inletPrevTs : Option ℚ
  lightPrev : Option ℚ
  lightPrevTs : Option ℚ
  feedRefill : Option Bool
  waterRefill : Option Bool
  heaterOn : Option Bool
  heaterSwitchTs : Option ℚ

/-- The fresh per-zone state of a zone the planner has never seen. -/
def PlannerZoneState.fresh : PlannerZoneState :=
  ⟨none, none, none, none, none, none, none, none, none, none, none, none⟩

/-- A JSON value inside an action's command map. -/
inductive CmdVal where
  | s (v : String)
  | i (v : ℤ)
deriving DecidableEq

/-- `Action` dataclass of `common/models.py`: actuator name, priority and
the JSON command map (ordered as constructed). -/
structure Action where
  actuator : String
  priority : ℤ
  command : List (String × CmdVal)
deriving DecidableEq

/-- Helper of the embedding: the `if x is not None: actions.append(...)`
pattern — the sub-list contributed by one optional level. -/
def optAction (o : Option ℚ) (f : ℚ → Action) : List Action :=
  match o with
  | some v => [f v]
  | none => []

/-- `_build_actions_from_status` (planner_service.py lines 81–287) before
the final sort: the action list in append order.  `now` is `time.time()`
and `time_of_day_h` the local wall-clock hour (line 264). -/
def build_actions_unsorted (cfg : PlannerConfig) (st : ZoneStatusMsg)
    (ps : PlannerZoneState) (now time_of_day_h : ℚ) : List Action :=
  let temp := st.temperature_c
  let nh3 := st.nh3_ppm
  let co2 := st.co2_ppm
  -- FAN CONTROL (0–100%)
  let fan_level0 : Option ℚ :=
    if temp.isSome || co2.isSome then
      let temp_error : ℚ := match temp with
        | some t => max 0 (t - cfg.temp_setpoint)
        | none => 0
      let co2_error : ℚ := match co2 with
        | some c => max 0 (c - cfg.co2_setpoint)
        | none => 0
      let fl := cfg.fan_kp_temp * temp_error + cfg.fan_kp_co2 * co2_error
      let fl := match nh3 with
        | some n => if n > cfg.nh3_threshold then fl + 30 else fl
        | none => fl
      let fl := if temp.isNone && co2.isNone then cfg.fan_max else fl
      some (max cfg.fan_min (min cfg.fan_max fl))
    else none
  -- HEATER CONTROL (LEVEL 0–100%)
  let heater_level : Option ℚ :=
    match temp with
    | none => none
    | some t =>
      let hs := heater_on_state ps.heaterOn ps.heaterSwitchTs now t
        cfg.temp_setpoint cfg.heater_deadband_c cfg.heater_min_on_s cfg.heater_min_off_s
      let lvl : ℚ :=
        if hs.1 then
          let l := min 100 (cfg.heater_kp_temp * max 0 (cfg.temp_setpoint - t))
          if l < cfg.heater_min_level then cfg.heater_min_level else l
        else 0
      some (rate_limit ps.heaterPrev ps.heaterPrevTs now lvl cfg.heater_rate_limit_per_min)
  -- cold-weather overventilation guard (shared by the fan and inlet caps)
  let cold : Bool :=
    (match temp with
     | some t => decide (t < cfg.temp_setpoint - cfg.cold_vent_delta_c)
     | none => false)
    && (match co2 with
        | some c => decide (c < cfg.co2_max)
        | none => true)
    && (match nh3 with
        | some n => decide (n < cfg.nh3_threshold)
        | none => true)
  -- If heater is ON, keep at least some fan; floors and cold cap
  let fan_level1 : Option ℚ :=
    match fan_level0 with
    | none => none
    | some fl =>
      let fl := match heater_level with
        | some hl => if hl > 0 then max fl cfg.heater_min_fan else fl
        | none => fl
      let fl := max fl cfg.fan_min_vent_pct
      let fl := if cold then min fl cfg.fan_cold_max_pct else fl
      some fl
  let fan_level : Option ℚ := fan_level1.map
    (fun fl => rate_limit ps.fanPrev ps.fanPrevTs now fl cfg.fan_rate_limit_per_min)
  let fanActs := optAction fan_level
    (fun fl => ⟨"fan", 1, [("action", CmdVal.s "SET"), ("level", CmdVal.i (pyInt fl))]⟩)
  let heaterActs := optAction heater_level
    (fun hl => ⟨"heater", 1, [("action", CmdVal.s "SET"), ("level_pct", CmdVal.i (pyInt hl))]⟩)
  -- FEED & WATER (HYSTERESIS REFILL)
  let feed_refill_on := hysteresis_state ps.feedRefill st.feed_kg
    cfg.feed_refill_low_kg cfg.feed_refill_high_kg
  let water_refill_on := hysteresis_state ps.waterRefill st.water_l
    cfg.water_refill_low_l cfg.water_refill_high_l
  let feedAct : Action :=
    ⟨"feed_dispenser", 3, [("action", CmdVal.s (if feed_refill_on then "ON" else "OFF"))]⟩
  let waterAct : Action :=
    ⟨"water_valve", 3, [("action", CmdVal.s (if water_refill_on then "ON" else "OFF"))]⟩
  -- INLET (FAN + AIR QUALITY)
  let inlet_open : Option ℚ :=
    match fan_level with
    | none => none
    | some fl =>
      let io := 20 + (3/5) * fl
      let io := match co2 with
        | some c => if c > cfg.co2_setpoint then io + min 20 ((c - cfg.co2_setpoint) / 50) else io
        | none => io
      let io := match nh3 with
        | some n => if n > cfg.nh3_threshold then io + min 15 ((n - cfg.nh3_threshold) * (3/2)) else io
        | none => io
      let io := max cfg.inlet_min_pct (min 100 io)
      let io := if cold then min io cfg.inlet_cold_max_pct else io
      some (rate_limit ps.inletPrev ps.inletPrevTs now io cfg.inlet_rate_limit_per_min)
  let inletActs := optAction inlet_open
    (fun io => ⟨"inlet", 2, [("action", CmdVal.s "SET"), ("open_pct", CmdVal.i (pyInt io))]⟩)
  -- LIGHT DIMMER (ACTIVITY)
  let night : Bool := !(decide (cfg.lights_on_h ≤ time_of_day_h)
    && decide (time_of_day_h < cfg.lights_off_h))
  let min_light := if night then cfg.light_min_night_pct else cfg.light_min_day_pct
  let light_pre : ℚ :=
    match st.activity with
    | some a =>
      let ll := 60 + 70 * (cfg.activity_min - a)
      let ll := if a > cfg.light_activity_high then ll - 20 else ll
      max min_light (min 100 ll)
    | none => min_light
  let light_level := rate_limit ps.lightPrev ps.lightPrevTs now light_pre
    cfg.light_rate_limit_per_min
  let lightAct : Action :=
    ⟨"light", 4, [("action", CmdVal.s "SET"), ("level_pct", CmdVal.i (pyInt light_level))]⟩
  fanActs ++ heaterActs ++ [feedAct, waterAct] ++ inletActs ++ [lightAct]

/-- `_build_actions_from_status`, including the final stable
`actions.sort(key=lambda a: a.priority)`. -/
def build_actions_from_status (cfg : PlannerConfig) (st : ZoneStatusMsg)
    (ps : PlannerZoneState) (now time_of_day_h : ℚ) : List Action :=
  (build_actions_unsorted cfg st ps now time_of_day_h).mergeSort
    (fun a b => a.priority ≤ b.priority)

/-- The publish decision in the planner's `on_message` (planner_service.py
lines 339–344): a plan is published exactly when the built action list is
non-empty. -/
def planner_emits_plan (actions : List Action) : Bool := !actions.isEmpty

theorem countP_optAction_zero {p : Action → Bool} {o : Option ℚ} {f : ℚ → Action}
    (h : ∀ v, p (f v) = false) : (optAction o f).countP p = 0 := by
  cases o <;> simp [optAction, h]

theorem mem_optAction {a : Action} {o : Option ℚ} {f : ℚ → Action}
    (h : a ∈ optAction o f) : ∃ v, a = f v := by
  cases o with
  | none => simp [optAction] at h
  | some v =>
    simp only [optAction, List.mem_singleton] at h
    exact ⟨v, h⟩

/-- C10: for every status and resolved configuration, the built action
list contains exactly one feed_dispenser action and exactly one
water_valve action, each commanded {"action": "ON"} or {"action": "OFF"};
the list is never empty, so the planner's `on_message` publishes a plan
for every well-formed status. -/
theorem c10_feed_water_always_planned (cfg : PlannerConfig) (st : ZoneStatusMsg)
    (ps : PlannerZoneState) (now tod : ℚ) :
    (build_actions_from_status cfg st ps now tod).countP
        (fun a => a.actuator == "feed_dispenser") = 1
    ∧ (build_actions_from_status cfg st ps now tod).countP
        (fun a => a.actuator == "water_valve") = 1
    ∧ (build_actions_from_status cfg st ps now tod).all
        (fun a => !(a.actuator == "feed_dispenser" || a.actuator == "water_valve")
          || (a.command == [("action", CmdVal.s "ON")]
              || a.command == [("action", CmdVal.s "OFF")])) = true
    ∧ build_actions_from_status cfg st ps now tod ≠ []
    ∧ planner_emits_plan (build_actions_from_status cfg st ps now tod) = true := by
  have hperm := List.mergeSort_perm (build_actions_unsorted cfg st ps now tod)
    (fun a b => a.priority ≤ b.priority)
  have hmem : ∀ a, a ∈ build_actions_from_status cfg st ps now tod ↔
      a ∈ build_actions_unsorted cfg st ps now tod := by
    intro a
    exact hperm.mem_iff
  have hne : build_actions_from_status cfg st ps now tod ≠ [] := by
    intro hnil
    have hlen := hperm.length_eq
    rw [build_actions_from_status] at hnil
    rw [hnil] at hlen
    simp only [build_actions_unsorted, List.length_append, List.length_cons,
      List.length_singleton, List.length_nil] at hlen
    omega
  refine ⟨?_, ?_, ?_, ?_, ?_⟩
  · rw [build_actions_from_status, hperm.countP_eq]
    simp only [build_actions_unsorted, List.countP_append]
    rw [countP_optAction_zero (fun v => by simp),
        countP_optAction_zero (fun v => by simp),
        countP_optAction_zero (fun v => by simp)]
    simp [List.countP_cons]
  · rw [build_actions_from_status, hperm.countP_eq]
    simp only [build_actions_unsorted, List.countP_append]
    rw [countP_optAction_zero (fun v => by simp),
        countP_optAction_zero (fun v => by simp),
        countP_optAction_zero (fun v => by simp)]
    simp [List.countP_cons]
  · rw [List.all_eq_true]
    intro a ha
    rw [hmem] at ha
    simp only [build_actions_unsorted, List.mem_append] at ha
    rcases ha with ((((ha | ha) | ha) | ha) | ha)
    · obtain ⟨v, rfl⟩ := mem_optAction ha
      simp
    · obtain ⟨v, rfl⟩ := mem_optAction ha
      simp
    · simp only [List.mem_cons, List.mem_singleton] at ha
      rcases ha with rfl | rfl | ha
      · rcases hysteresis_state ps.feedRefill st.feed_kg
            cfg.feed_refill_low_kg cfg.feed_refill_high_kg <;> simp
      · rcases hysteresis_state ps.waterRefill st.water_l
            cfg.water_refill_low_l cfg.water_refill_high_l <;> simp
      · simp at ha
    · obtain ⟨v, rfl⟩ := mem_optAction ha
      simp
    · simp only [List.mem_singleton] at ha
      subst ha
      simp
  · exact hne
  · simp only [planner_emits_plan, Bool.not_eq_true']
    rw [List.isEmpty_eq_false]
    exact hne

/-- C3 divergence: whenever both the temperature and the CO₂ value are
missing from the status, the builder emits NO fan action at all — the
`fan_level = FAN_MAX` assignment in the source sits inside
`if temp is not None or co2 is not None:` and is unreachable, so no fan
action (at fan_max or otherwise) is produced. -/
theorem c3_no_fan_action_when_temp_and_co2_missing (cfg : PlannerConfig)
    (st : ZoneStatusMsg) (ps : PlannerZoneState) (now tod : ℚ)
    (ht : st.temperature_c = none) (hc : st.co2_ppm = none) :
    (build_actions_from_status cfg st ps now tod).countP
      (fun a => a.actuator == "fan") = 0 := by
  have hperm := List.mergeSort_perm (build_actions_unsorted cfg st ps now tod)
    (fun a b => a.priority ≤ b.priority)
  rw [build_actions_from_status, hperm.countP_eq]
  simp only [build_actions_unsorted, ht, hc]
  simp [optAction, List.countP_append, List.countP_cons]

/-- A plausible resolved per-zone configuration (concrete values used only
to instantiate theorems; the demo-tuned defaults of common/config.py). -/
def examplePlannerConfig : PlannerConfig where
  temp_setpoint := 26
  co2_setpoint := 1500
  nh3_threshold := 25
  co2_max := 3000
  fan_kp_temp := 10
  fan_kp_co2 := 1/50
  fan_max := 100
  fan_min := 0
  heater_kp_temp := 20
  heater_deadband_c := 2/5
  heater_min_on_s := 60
  heater_min_off_s := 60
  heater_min_level := 20
  heater_min_fan := 20
  fan_min_vent_pct := 10
  inlet_min_pct := 10
  fan_cold_max_pct := 30
  inlet_cold_max_pct := 30
  cold_vent_delta_c := 2
  light_activity_high := 7/10
  activity_min := 3/10
  light_min_day_pct := 20
  light_min_night_pct := 5
  lights_on_h := 6
  lights_off_h := 22
  fan_rate_limit_per_min := 80
  heater_rate_limit_per_min := 80
  inlet_rate_limit_per_min := 80
  light_rate_limit_per_min := 80
  feed_threshold := 3/2
  water_threshold := 4/5
  feed_refill_low_kg := 3/2
  feed_refill_high_kg := 5/2
  water_refill_low_l := 4/5
  water_refill_high_l := 3/2

/-- A status whose air-group readings (temperature and CO₂) are missing. -/
def exampleStatusNoAir : ZoneStatusMsg :=
  ⟨none, none, some 10, some 5, some 5, some (1/2)⟩

/-- C3 witness: the no-fan-action fact at the concrete failing input. -/
theorem c3_no_fan_action_when_temp_and_co2_missing_witness :
    (build_actions_from_status examplePlannerConfig exampleStatusNoAir
        PlannerZoneState.fresh 1000 12).countP (fun a => a.actuator == "fan") = 0 :=
  c3_no_fan_action_when_temp_and_co2_missing examplePlannerConfig exampleStatusNoAir
    PlannerZoneState.fresh 1000 12 rfl rfl

/-! ## Starvation-aware variant planner (`src/src/planner/Computation.py`)

`datetime` arithmetic is abstracted: an issue's `age` is the elapsed
seconds since its `first_detected` timestamp (`none` when the issue is not
in `_issue_history`).  The insertion-ordered dicts `_issue_priority` and
`_active_issues` are association lists; `_starvation_queue` is a FIFO
list. -/

/-- `ISSUE_PRIORITIES.get(issue, 5)` (Computation.py lines 32–38). -/
def issue_priorities (issue : String) : ℤ :=
  if issue = "TEMP_HIGH" then 10
  else if issue = "TEMP_LOW" then 10
  else if issue = "AIR_QUALITY_BAD" then 9
  else if issue = "WATER_LOW" then 8
  else if issue = "FEED_LOW" then 7
  else 5

/-- Nested thresholds config of the variant planner
(`self._thresholds[category][field]` with per-field defaults). -/
structure Thresholds where
  entries : List (String × List (String × ℚ))

/-- `self._thresholds.get(category, {}).get(field, default)`. -/
def Thresholds.getD (t : Thresholds) (category fieldName : String) (d : ℚ) : ℚ :=
  (((t.entries.lookup category).getD []).lookup fieldName).getD d

/-- `_calculate_priority` (Computation.py lines 122–169).  `age` is the
seconds since the issue entered `_issue_history` (`none` if absent);
`issue.lower().replace("_low", "_level")` is spelt out for the two issues
that reach that branch. -/
def calculate_priority (thr : Thresholds) (starvation_threshold : ℚ)
    (issue : String) (value : ℚ) (age : Option ℚ) : ℤ :=
  let base : ℚ := (issue_priorities issue : ℤ)
  let sev : ℚ :=
    if issue = "TEMP_HIGH" then
      let mx := thr.getD "temperature" "max" 28
      if value > mx then 1 + ((value - mx) / mx) * (1/2) else 1
    else if issue = "TEMP_LOW" then
      let mn := thr.getD "temperature" "min" 20
      if value < mn then 1 + ((mn - value) / mn) * (1/2) else 1
    else if issue = "AIR_QUALITY_BAD" then
      let mx := thr.getD "ammonia" "max" 25
      if value > mx then 1 + ((value - mx) / mx) * (1/2) else 1
    else if issue = "FEED_LOW" || issue = "WATER_LOW" then
      let key := if issue = "FEED_LOW" then "feed_level" else "water_level"
      let mn := thr.getD key "min" 20
      if value < mn then 1 + ((mn - value) / mn) * (3/10) else 1
    else 1
  let sev : ℚ :=
    match age with
    | some a =>
      if a > starvation_threshold then
        sev * min (3/2) (1 + (a - starvation_threshold) / 600)
      else sev
    | none => sev
  pyInt (base * sev)

/-- `self._issue_priority.get(issue, 0)`. -/
def priority_of (prs : List (String × ℤ)) (issue : String) : ℤ :=
  (prs.lookup issue).getD 0

/-- `get_starvation_issue` (Computation.py lines 190–209): the queue is
sorted by priority descending with Python's stable sort and the head
taken, i.e. the earliest-queued issue of maximal priority. -/
def get_starvation_issue (queue : List String) (prs : List (String × ℤ)) :
    Option String × ℤ :=
  match queue with
  | [] => (none, 0)
  | i :: rest =>
    let best := rest.foldl
      (fun b x => if priority_of prs x > priority_of prs b then x else b) i
    (some best, priority_of prs best)

/-- `get_highest_priority_issue` (Computation.py lines 228–255).
`max(dict.values())` and `max(dict.items(), key=...)` take the first
maximum in insertion order; Python's truthiness tests on the optional
starved issue and on the issue name are modelled explicitly. -/
def get_highest_priority_issue (queue : List String) (prs : List (String × ℤ))
    (active : List (String × ℚ)) : Option String × ℤ × ℚ :=
  let s := get_starvation_issue queue prs
  let starved := s.1
  let starvedP := s.2
  let tailResult : Option String × ℤ × ℚ :=
    match starved with
    | some si => (some si, starvedP, (active.lookup si).getD 0)
    | none => (none, 0, 0)
  match prs with
  | [] => tailResult
  | p :: rest =>
    let maxP := rest.foldl (fun m x => max m x.2) p.2
    let maxIssue := (((p :: rest).find? (fun x => x.2 = maxP)).map (·.1)).getD ""
    if starved.isSome && decide ((starvedP : ℚ) ≥ (maxP : ℚ) * (4/5)) then
      (starved, starvedP, (active.lookup (starved.getD "")).getD 0)
    else if maxIssue ≠ "" then
      (some maxIssue, maxP, (active.lookup maxIssue).getD 0)
    else tailResult

/-- C8 counterexample: TEMP_HIGH re-registered with severity multiplier 1
(value 28, not starved) gets priority 10; FEED_LOW with severity
multiplier 1 (value 20) unaddressed for 320 s gets priority
int(7 · min(1.5, 1 + 20/600)) = int(7.2333…) = 7; since 7 < 0.8 · 10 = 8
the starved-preference test fails and the selection returns TEMP_HIGH,
not FEED_LOW. -/
theorem c8_starvation_selection_counterexample :
    calculate_priority ⟨[]⟩ 300 "TEMP_HIGH" 28 (some 100) = 10
    ∧ calculate_priority ⟨[]⟩ 300 "FEED_LOW" 20 (some 320) = 7
    ∧ (get_highest_priority_issue ["FEED_LOW"]
        [("TEMP_HIGH", 10), ("FEED_LOW", 7)]
        [("TEMP_HIGH", 28), ("FEED_LOW", 20)]).1 = some "TEMP_HIGH" := by
  refine ⟨?_, ?_, ?_⟩ <;>
    · simp [calculate_priority, issue_priorities, Thresholds.getD,
        get_highest_priority_issue, get_starvation_issue, priority_of,
        List.lookup, List.foldl, List.find?]
      norm_num [pyInt]

/-- C8 amended: with TEMP_HIGH at priority 10 and FEED_LOW (base 7,
severity 1) starved, the selection prefers the starved FEED_LOW only once
its starved priority reaches 80 % of the best active priority, i.e.
int(7 · min(1.5, 1 + (age − 300)/600)) ≥ 8, which first holds at age
≥ 300 + 600/7 ≈ 385.7 s; at 320 s its priority is still 7 and TEMP_HIGH
is selected, while at 390 s its priority is int(8.05) = 8 ≥ 8 and
FEED_LOW is selected. -/
theorem c8_starvation_selection_threshold :
    (get_highest_priority_issue ["FEED_LOW"]
        [("TEMP_HIGH", 10), ("FEED_LOW", 7)]
        [("TEMP_HIGH", 28), ("FEED_LOW", 20)]).1 = some "TEMP_HIGH"
    ∧ calculate_priority ⟨[]⟩ 300 "FEED_LOW" 20 (some 390) = 8
    ∧ (get_highest_priority_issue ["FEED_LOW"]
        [("TEMP_HIGH", 10), ("FEED_LOW", 8)]
        [("TEMP_HIGH", 28), ("FEED_LOW", 20)]).1 = some "FEED_LOW" := by
  refine ⟨?_, ?_, ?_⟩ <;>
    · simp [calculate_priority, issue_priorities, Thresholds.getD,
        get_highest_priority_issue, get_starvation_issue, priority_of,
        List.lookup, List.foldl, List.find?]
      norm_num [pyInt]

/-! ## Barn simulator (`src/environment/model.py`)

Module constants are embedded at their defaults (every `_env_float` /
`_env_int` override defaults when the variable is unset), with
`USE_HOST_TIME = false`.  The two `math.sin` evaluations (outside-
temperature day phase, circadian phase) are abstracted as explicit inputs
`sinDay` and `sinCirc` to `step`; the state invariants hold for every
value of these inputs. -/

def OUTSIDE_TEMP_BASE_C : ℚ := 16
def OUTSIDE_TEMP_SWING_C : ℚ := 7
def OUTSIDE_CO2_PPM : ℚ := 420
def STARTUP_OVERRIDE_S : ℚ := 60
def BARN_UA_W_PER_K : ℚ := 250
def THERMAL_MASS_FACTOR : ℚ := 3
def AIR_DENSITY : ℚ := 6/5
def AIR_CP : ℚ := 1005
def FAN_MAX_FLOW_M3_S : ℚ := 4
def BASE_INFILTRATION_M3_S : ℚ := 3/20
def HEATER_POWER_W : ℚ := 20000
def BIRD_HEAT_W_BASE : ℚ := 10
def BIRD_HEAT_W_ACTIVITY : ℚ := 6
def CO2_LPS_PER_BIRD : ℚ := 3/2500
def CO2_ACTIVITY_MULT : ℚ := 3/2
def NH3_MG_S_PER_BIRD : ℚ := 1/25
def NH3_ACTIVITY_MULT : ℚ := 3/2
def NH3_TEMP_COEFF : ℚ := 1/25
def NH3_DECAY_PER_S : ℚ := 1/3600
def FEED_G_PER_BIRD_DAY : ℚ := 110
def WATER_L_PER_BIRD_DAY : ℚ := 1/4
def FEED_ACTIVITY_MULT : ℚ := 4/5
def WATER_ACTIVITY_MULT : ℚ := 11/10
def FEED_HOPPER_CAPACITY_KG : ℚ := 30
def WATER_TANK_CAPACITY_L : ℚ := 20
def FEED_REFILL_FLOW_KG_S : ℚ := 1/50
def WATER_REFILL_FLOW_L_S : ℚ := 3/20
def FAN_ON_TEMP_C : ℚ := 25
def FAN_OFF_TEMP_C : ℚ := 23
def HEATER_ON_TEMP_C : ℚ := 20
def HEATER_OFF_TEMP_C : ℚ := 24
def AUTO_FAN_LEVEL : ℚ := 60
def MIN_FAN_ON_S : ℚ := 120
def MIN_FAN_OFF_S : ℚ := 120
def AUTO_CONTROL_TIMEOUT_S : ℚ := 300
def SIM_LIGHTS_ON_H : ℚ := 6
def SIM_LIGHTS_OFF_H : ℚ := 22
def LIGHT_DAY_PCT : ℚ := 70
def LIGHT_NIGHT_PCT : ℚ := 5
def FAN_RAMP_PER_MIN : ℚ := 40
def HEATER_RAMP_PER_MIN : ℚ := 60
def INLET_RAMP_PER_MIN : ℚ := 60
def LIGHT_RAMP_PER_MIN : ℚ := 80
def ACTIVITY_TIME_CONSTANT_MIN : ℚ := 15

/-- The `EnvironmentState` dataclass (model.py lines 119–161). -/
structure EnvironmentState where
  temperature_c : ℚ
  co2_ppm : ℚ
  nh3_ppm : ℚ
  feed_kg : ℚ
  water_l : ℚ
  activity : ℚ
  fan_level : ℚ
  fan_level_command : ℚ
  fan_on : Bool
  fan_last_switch_s : ℚ
  fan_cmd_last_s : ℚ
  heater_level : ℚ
  heater_level_command : ℚ
  heater_cmd_last_s : ℚ
  inlet_open_pct : ℚ
  inlet_open_pct_command : ℚ
  inlet_cmd_last_s : ℚ
  light_level_pct : ℚ
  light_level_pct_command : ℚ
  light_cmd_last_s : ℚ
  feed_refill_on : Bool
  feed_refill_remaining_s : ℚ
  water_refill_on : Bool
  water_refill_remaining_s : ℚ
  auto_control : Bool
  sim_time_s : ℚ
  bird_count : ℤ
  barn_volume_m3 : ℚ

/-- Python float `%` (used in `_time_of_day_h`): `a - b·⌊a/b⌋`. -/
def floatMod (a b : ℚ) : ℚ := a - b * ⌊a / b⌋

/-- `_time_of_day_h` with `USE_HOST_TIME` unset: `(t/3600) % 24`. -/
def sim_time_of_day_h (sim_time_s : ℚ) : ℚ := floatMod (sim_time_s / 3600) 24

/-- `_outside_temp` with `USE_HOST_TIME` unset; `sinDay` stands for
`math.sin(2π · (t mod 24h)/24h)`. -/
def outside_temp (sinDay : ℚ) : ℚ :=
  OUTSIDE_TEMP_BASE_C + OUTSIDE_TEMP_SWING_C * sinDay

/-- `_stage_fan_level`: smallest stage of {0, 40, 70, 100} ≥ the command
(with any command > 100 mapped to the last stage 100). -/
def stage_fan_level (command_level : ℚ) : ℚ :=
  if command_level ≤ 0 then 0
  else if command_level ≤ 40 then 40
  else if command_level ≤ 70 then 70
  else 100

/-- `INLET_FOR_STAGE.get(staged, default)` (model.py lines 96–101). -/
def inlet_for_stage (staged : ℚ) : Option ℚ :=
  if staged = 0 then some 10
  else if staged = 40 then some 40
  else if staged = 70 then some 60
  else if staged = 100 then some 80
  else none

/-- `_ventilation_flow_m3_s`. -/
def ventilation_flow_m3_s (fan_level inlet_open_pct : ℚ) : ℚ :=
  BASE_INFILTRATION_M3_S +
    FAN_MAX_FLOW_M3_S * (fan_level / 100) * (1/5 + (4/5) * (inlet_open_pct / 100))

/-- Step section 0 (model.py lines 210–253): auto-control fallback on
stale commands, startup override, and clamping of the four commanded
values.  Runs after `sim_time_s` has been advanced. -/
def commandPhase (s : EnvironmentState) : EnvironmentState :=
  let now := s.sim_time_s
  let auto_active := s.auto_control && decide (s.sim_time_s ≥ STARTUP_OVERRIDE_S)
  let fan_stale := decide (s.fan_cmd_last_s = 0)
    || decide (now - s.fan_cmd_last_s ≥ AUTO_CONTROL_TIMEOUT_S)
  let fanCmd0 :=
    if auto_active && fan_stale then
      if s.temperature_c ≥ FAN_ON_TEMP_C then max s.fan_level_command AUTO_FAN_LEVEL
      else if s.temperature_c ≤ FAN_OFF_TEMP_C then 0
      else s.fan_level_command
    else s.fan_level_command
  let heater_stale := decide (s.heater_cmd_last_s = 0)
    || decide (now - s.heater_cmd_last_s ≥ AUTO_CONTROL_TIMEOUT_S)
  let heaterCmd0 :=
    if auto_active && heater_stale then
      if s.temperature_c ≤ HEATER_ON_TEMP_C then 100
      else if s.temperature_c ≥ HEATER_OFF_TEMP_C then 0
      else s.heater_level_command
    else s.heater_level_command
  let inlet_stale := decide (s.inlet_cmd_last_s = 0)
    || decide (now - s.inlet_cmd_last_s ≥ AUTO_CONTROL_TIMEOUT_S)
  let inletCmd0 :=
    if auto_active && inlet_stale then
      (inlet_for_stage (stage_fan_level fanCmd0)).getD s.inlet_open_pct_command
    else s.inlet_open_pct_command
  let light_stale := decide (s.light_cmd_last_s = 0)
    || decide (now - s.light_cmd_last_s ≥ AUTO_CONTROL_TIMEOUT_S)
  let lightCmd0 :=
    if auto_active && light_stale then
      if SIM_LIGHTS_ON_H ≤ sim_time_of_day_h s.sim_time_s
          ∧ sim_time_of_day_h s.sim_time_s < SIM_LIGHTS_OFF_H then
        LIGHT_DAY_PCT
      else LIGHT_NIGHT_PCT
    else s.light_level_pct_command
  let startup := decide (s.sim_time_s < STARTUP_OVERRIDE_S)
  let fanCmd1 := if startup then 0 else fanCmd0
  let heaterCmd1 := if startup then 0 else heaterCmd0
  let inletCmd1 := if startup then 0 else inletCmd0
  let lightCmd1 := if startup then 0 else lightCmd0
  { s with
    fan_level_command := clamp fanCmd1 0 100
    heater_level_command := clamp heaterCmd1 0 100
    inlet_open_pct_command := clamp inletCmd1 0 100
    light_level_pct_command := clamp lightCmd1 0 100 }

/-- Step section 1 (model.py lines 255–303): fan on/off state machine
with minimum dwell, then rate-limited ramps of the four levels, each
clamped to [0, 100]. -/
def actuatorPhase (s : EnvironmentState) (dt : ℚ) : EnvironmentState :=
  let now := s.sim_time_s
  let desired := decide (s.fan_level_command > 0)
  let sw : Bool × ℚ :=
    if desired ≠ s.fan_on then
      let elapsed := now - s.fan_last_switch_s
      if desired && decide (elapsed ≥ MIN_FAN_OFF_S) then (true, now)
      else if !desired && decide (elapsed ≥ MIN_FAN_ON_S) then (false, now)
      else (s.fan_on, s.fan_last_switch_s)
    else (s.fan_on, s.fan_last_switch_s)
  let staged_target := stage_fan_level s.fan_level_command
  let target_fan_level := if sw.1 then staged_target else 0
  let dt_min := dt / 60
  let max_step := FAN_RAMP_PER_MIN * dt_min
  let delta0 := target_fan_level - s.fan_level
  let delta := if delta0 > max_step then max_step
    else if delta0 < -max_step then -max_step else delta0
  let heater_step := HEATER_RAMP_PER_MIN * dt_min
  let heater_delta0 := s.heater_level_command - s.heater_level
  let heater_delta := if heater_delta0 > heater_step then heater_step
    else if heater_delta0 < -heater_step then -heater_step else heater_delta0
  let inlet_step := INLET_RAMP_PER_MIN * dt_min
  let inlet_delta0 := s.inlet_open_pct_command - s.inlet_open_pct
  let inlet_delta := if inlet_delta0 > inlet_step then inlet_step
    else if inlet_delta0 < -inlet_step then -inlet_step else inlet_delta0
  let light_step := LIGHT_RAMP_PER_MIN * dt_min
  let light_delta0 := s.light_level_pct_command - s.light_level_pct
  let light_delta := if light_delta0 > light_step then light_step
    else if light_delta0 < -light_step then -light_step else light_delta0
  { s with
    fan_on := sw.1
    fan_last_switch_s := sw.2
    fan_level := clamp (s.fan_level + delta) 0 100
    heater_level := clamp (s.heater_level + heater_delta) 0 100
    inlet_open_pct := clamp (s.inlet_open_pct + inlet_delta) 0 100
    light_level_pct := clamp (s.light_level_pct + light_delta) 0 100 }

/-- Step section 3 (model.py lines 310–323): lumped heat balance, clamped
to [10, 40] °C. -/
def thermalPhase (s : EnvironmentState) (dt flow sinDay : ℚ) : EnvironmentState :=
  let outside := outside_temp sinDay
  let heat_capacity := AIR_DENSITY * AIR_CP * s.barn_volume_m3 * THERMAL_MASS_FACTOR
  let q_loss := BARN_UA_W_PER_K * (s.temperature_c - outside)
  let q_vent := AIR_DENSITY * AIR_CP * flow * (s.temperature_c - outside)
  let q_heater := HEATER_POWER_W * (s.heater_level / 100)
  let bird_heat := (s.bird_count : ℚ) * (BIRD_HEAT_W_BASE + BIRD_HEAT_W_ACTIVITY * s.activity)
  let dtemp := (q_heater + bird_heat - q_loss - q_vent) / heat_capacity
  { s with temperature_c := clamp (s.temperature_c + dtemp * dt) 10 40 }

/-- Step section 4 (model.py lines 325–334): CO₂ mass balance, clamped to
[400, 6000] ppm. -/
def co2Phase (s : EnvironmentState) (dt flow : ℚ) : EnvironmentState :=
  let co2_lps := CO2_LPS_PER_BIRD * (1 + CO2_ACTIVITY_MULT * s.activity)
  let co2_m3_s := co2_lps * (s.bird_count : ℚ) / 1000
  let co2_gen_ppm_s := co2_m3_s / s.barn_volume_m3 * 1000000
  let co2_vent_ppm_s := flow / s.barn_volume_m3 * (OUTSIDE_CO2_PPM - s.co2_ppm)
  { s with co2_ppm := clamp (s.co2_ppm + (co2_gen_ppm_s + co2_vent_ppm_s) * dt) 400 6000 }

/-- Step section 5 (model.py lines 336–353): NH₃ emission, ventilation
and first-order decay, clamped to [0, 200] ppm. -/
def nh3Phase (s : EnvironmentState) (dt flow : ℚ) : EnvironmentState :=
  let temp_factor := max 0 (s.temperature_c - 20)
  let nh3_mg_s := NH3_MG_S_PER_BIRD * (s.bird_count : ℚ)
    * (1 + NH3_ACTIVITY_MULT * s.activity) * (1 + NH3_TEMP_COEFF * temp_factor)
  let nh3_ppm_gen_s := nh3_mg_s / s.barn_volume_m3 * ((2445/100) / 17)
  let nh3_vent_ppm_s := flow / s.barn_volume_m3 * (0 - s.nh3_ppm)
  let nh3_decay_ppm_s := -NH3_DECAY_PER_S * s.nh3_ppm
  { s with nh3_ppm :=
      clamp (s.nh3_ppm + (nh3_ppm_gen_s + nh3_vent_ppm_s + nh3_decay_ppm_s) * dt) 0 200 }

/-- Per-second feed consumption rate of section 6: base bird consumption
modulated by activity, and by the hot/cold/no-water conditionals in source
order. -/
def feed_rate_fn (s : EnvironmentState) : ℚ :=
  let feed_kg_s := FEED_G_PER_BIRD_DAY / 1000 / 86400
  let feed_rate0 := (s.bird_count : ℚ) * feed_kg_s * (3/5 + FEED_ACTIVITY_MULT * s.activity)
  let feed_rate1 := if s.temperature_c > 28 then feed_rate0 * (9/10) else feed_rate0
  let feed_rate2 := if s.temperature_c < 18 then feed_rate1 * (17/20) else feed_rate1
  if s.water_l < 1 then feed_rate2 * (7/10) else feed_rate2

/-- Per-second water consumption rate of section 6. -/
def water_rate_fn (s : EnvironmentState) : ℚ :=
  let water_l_s := WATER_L_PER_BIRD_DAY / 86400
  let water_rate0 := (s.bird_count : ℚ) * water_l_s * (7/10 + WATER_ACTIVITY_MULT * s.activity)
  let water_rate1 := if s.temperature_c > 26 then water_rate0 * (6/5) else water_rate0
  if s.temperature_c < 18 then water_rate1 * (9/10) else water_rate1

/-- Step section 6 (model.py lines 355–390): feed and water consumption,
timed/continuous refill, hopper and tank floors/caps. -/
def feedWaterPhase (s : EnvironmentState) (dt : ℚ) : EnvironmentState :=
  let feed1 := max 0 (s.feed_kg - feed_rate_fn s * dt)
  let feed_rem := if s.feed_refill_remaining_s > 0
    then max 0 (s.feed_refill_remaining_s - dt) else s.feed_refill_remaining_s
  let feed_active := s.feed_refill_on || decide (feed_rem > 0)
  let feed2 := if feed_active
    then min FEED_HOPPER_CAPACITY_KG (feed1 + FEED_REFILL_FLOW_KG_S * dt) else feed1
  let water1 := max 0 (s.water_l - water_rate_fn s * dt)
  let water_rem := if s.water_refill_remaining_s > 0
    then max 0 (s.water_refill_remaining_s - dt) else s.water_refill_remaining_s
  let water_active := s.water_refill_on || decide (water_rem > 0)
  let water2 := if water_active
    then min WATER_TANK_CAPACITY_L (water1 + WATER_REFILL_FLOW_L_S * dt) else water1
  { s with
    feed_kg := feed2
    feed_refill_remaining_s := feed_rem
    water_l := water2
    water_refill_remaining_s := water_rem }

/-- Step section 7 (model.py lines 392–415): activity target with
penalties, clamped relaxation toward the target; `sinCirc` stands for
`math.sin(2π(time_of_day − 6)/24)`. -/
def activityPhase (s : EnvironmentState) (dt sinCirc : ℚ) : EnvironmentState :=
  let circadian := 1/2 + (1/2) * sinCirc
  let light_factor := s.light_level_pct / 100
  let t0 := 3/20 + (1/2) * light_factor + (1/5) * circadian
  let t1 := if s.temperature_c < 20 ∨ s.temperature_c > 30 then t0 - 1/5 else t0
  let t2 := if s.co2_ppm > 3000 then t1 - 3/20 else t1
  let t3 := if s.nh3_ppm > 20 then t2 - 3/20 else t2
  let t4 := if s.feed_kg < 1 then t3 - 1/10 else t3
  let t5 := if s.water_l < 1 then t4 - 1/10 else t4
  let target_activity := clamp t5 0 1
  let activity_tau_s := ACTIVITY_TIME_CONSTANT_MIN * 60
  { s with activity :=
      clamp (s.activity + (target_activity - s.activity) * (dt / activity_tau_s)) 0 1 }

/-- `step(state, dt_s)` (model.py lines 202–415): advances `sim_time_s`,
then applies the sections in source order; the ventilation flow is
computed once from the post-actuator fan level and inlet opening and read
by the thermal and gas sections. -/
def step (s : EnvironmentState) (dt sinDay sinCirc : ℚ) : EnvironmentState :=
  let s0 : EnvironmentState := { s with sim_time_s := s.sim_time_s + dt }
  let s1 := commandPhase s0
  let s2 := actuatorPhase s1 dt
  let flow := ventilation_flow_m3_s s2.fan_level s2.inlet_open_pct
  let s3 := thermalPhase s2 dt flow sinDay
  let s4 := co2Phase s3 dt flow
  let s5 := nh3Phase s4 dt flow
  let s6 := feedWaterPhase s5 dt
  activityPhase s6 dt sinCirc

theorem feed_rate_fn_nonneg (s : EnvironmentState) (hA : 0 ≤ s.activity)
    (hb : 0 ≤ s.bird_count) : 0 ≤ feed_rate_fn s := by
  have hbq : (0:ℚ) ≤ (s.bird_count : ℚ) := by exact_mod_cast hb
  have hmul : (0:ℚ) ≤ 3/5 + FEED_ACTIVITY_MULT * s.activity := by
    have : (0:ℚ) ≤ FEED_ACTIVITY_MULT * s.activity := by
      have : (0:ℚ) ≤ FEED_ACTIVITY_MULT := by norm_num [FEED_ACTIVITY_MULT]
      exact mul_nonneg this hA
    linarith
  have h0 : (0:ℚ) ≤ (s.bird_count : ℚ) * (FEED_G_PER_BIRD_DAY / 1000 / 86400)
      * (3/5 + FEED_ACTIVITY_MULT * s.activity) := by
    refine mul_nonneg (mul_nonneg hbq ?_) hmul
    norm_num [FEED_G_PER_BIRD_DAY]
  simp only [feed_rate_fn]
  split_ifs <;> linarith

theorem water_rate_fn_nonneg (s : EnvironmentState) (hA : 0 ≤ s.activity)
    (hb : 0 ≤ s.bird_count) : 0 ≤ water_rate_fn s := by
  have hbq : (0:ℚ) ≤ (s.bird_count : ℚ) := by exact_mod_cast hb
  have hmul : (0:ℚ) ≤ 7/10 + WATER_ACTIVITY_MULT * s.activity := by
    have : (0:ℚ) ≤ WATER_ACTIVITY_MULT * s.activity := by
      have : (0:ℚ) ≤ WATER_ACTIVITY_MULT := by norm_num [WATER_ACTIVITY_MULT]
      exact mul_nonneg this hA
    linarith
  have h0 : (0:ℚ) ≤ (s.bird_count : ℚ) * (WATER_L_PER_BIRD_DAY / 86400)
      * (7/10 + WATER_ACTIVITY_MULT * s.activity) := by
    refine mul_nonneg (mul_nonneg hbq ?_) hmul
    norm_num [WATER_L_PER_BIRD_DAY]
  simp only [water_rate_fn]
  split_ifs <;> linarith

theorem feedWaterPhase_bounds (s : EnvironmentState) (dt : ℚ)
    (hF1 : 0 ≤ s.feed_kg) (hF2 : s.feed_kg ≤ FEED_HOPPER_CAPACITY_KG)
    (hW1 : 0 ≤ s.water_l) (hW2 : s.water_l ≤ WATER_TANK_CAPACITY_L)
    (hA : 0 ≤ s.activity) (hb : 0 ≤ s.bird_count) (hdt : 0 ≤ dt) :
    (0 ≤ (feedWaterPhase s dt).feed_kg
      ∧ (feedWaterPhase s dt).feed_kg ≤ FEED_HOPPER_CAPACITY_KG)
    ∧ (0 ≤ (feedWaterPhase s dt).water_l
      ∧ (feedWaterPhase s dt).water_l ≤ WATER_TANK_CAPACITY_L) := by
  have hfr : 0 ≤ feed_rate_fn s * dt := mul_nonneg (feed_rate_fn_nonneg s hA hb) hdt
  have hwr : 0 ≤ water_rate_fn s * dt := mul_nonneg (water_rate_fn_nonneg s hA hb) hdt
  have hff : (0:ℚ) ≤ FEED_REFILL_FLOW_KG_S * dt := by
    refine mul_nonneg ?_ hdt
    norm_num [FEED_REFILL_FLOW_KG_S]
  have hwf : (0:ℚ) ≤ WATER_REFILL_FLOW_L_S * dt := by
    refine mul_nonneg ?_ hdt
    norm_num [WATER_REFILL_FLOW_L_S]
  have hcapF : (0:ℚ) ≤ FEED_HOPPER_CAPACITY_KG := by norm_num [FEED_HOPPER_CAPACITY_KG]
  have hcapW : (0:ℚ) ≤ WATER_TANK_CAPACITY_L := by norm_num [WATER_TANK_CAPACITY_L]
  simp only [feedWaterPhase]
  refine ⟨⟨?_, ?_⟩, ?_, ?_⟩ <;> split_ifs <;>
    first
      | exact le_max_left 0 _
      | exact min_le_left _ _
      | exact le_min hcapF (add_nonneg (le_max_left 0 _) hff)
      | exact le_min hcapW (add_nonneg (le_max_left 0 _) hwf)
      | exact max_le hcapF (by linarith)
      | exact max_le hcapW (by linarith)

/-- C4: for every `EnvironmentState` whose physical fields and actuator
levels lie in their stated ranges (and with a nonnegative bird count) and
every dt_s ≥ 0, after `step` the state satisfies: temperature_c ∈ [10,40],
co2_ppm ∈ [400,6000], nh3_ppm ∈ [0,200], feed_kg ∈
[0, FEED_HOPPER_CAPACITY_KG], water_l ∈ [0, WATER_TANK_CAPACITY_L],
activity ∈ [0,1], and fan_level, heater_level, inlet_open_pct,
light_level_pct and their commanded values all in [0,100] — for every
value of the abstracted sine inputs. -/
theorem c4_step_state_invariants (s : EnvironmentState) (dt sinDay sinCirc : ℚ)
    (hT : 10 ≤ s.temperature_c ∧ s.temperature_c ≤ 40)
    (hC : 400 ≤ s.co2_ppm ∧ s.co2_ppm ≤ 6000)
    (hN : 0 ≤ s.nh3_ppm ∧ s.nh3_ppm ≤ 200)
    (hF : 0 ≤ s.feed_kg ∧ s.feed_kg ≤ FEED_HOPPER_CAPACITY_KG)
    (hW : 0 ≤ s.water_l ∧ s.water_l ≤ WATER_TANK_CAPACITY_L)
    (hA : 0 ≤ s.activity ∧ s.activity ≤ 1)
    (hfl : 0 ≤ s.fan_level ∧ s.fan_level ≤ 100)
    (hflc : 0 ≤ s.fan_level_command ∧ s.fan_level_command ≤ 100)
    (hhl : 0 ≤ s.heater_level ∧ s.heater_level ≤ 100)
    (hhlc : 0 ≤ s.heater_level_command ∧ s.heater_level_command ≤ 100)
    (hio : 0 ≤ s.inlet_open_pct ∧ s.inlet_open_pct ≤ 100)
    (hioc : 0 ≤ s.inlet_open_pct_command ∧ s.inlet_open_pct_command ≤ 100)
    (hll : 0 ≤ s.light_level_pct ∧ s.light_level_pct ≤ 100)
    (hllc : 0 ≤ s.light_level_pct_command ∧ s.light_level_pct_command ≤ 100)
    (hb : 0 ≤ s.bird_count) (hdt : 0 ≤ dt) :
    (10 ≤ (step s dt sinDay sinCirc).temperature_c
      ∧ (step s dt sinDay sinCirc).temperature_c ≤ 40)
    ∧ (400 ≤ (step s dt sinDay sinCirc).co2_ppm
      ∧ (step s dt sinDay sinCirc).co2_ppm ≤ 6000)
    ∧ (0 ≤ (step s dt sinDay sinCirc).nh3_ppm
      ∧ (step s dt sinDay sinCirc).nh3_ppm ≤ 200)
    ∧ (0 ≤ (step s dt sinDay sinCirc).feed_kg
      ∧ (step s dt sinDay sinCirc).feed_kg ≤ FEED_HOPPER_CAPACITY_KG)
    ∧ (0 ≤ (step s dt sinDay sinCirc).water_l
      ∧ (step s dt sinDay sinCirc).water_l ≤ WATER_TANK_CAPACITY_L)
    ∧ (0 ≤ (step s dt sinDay sinCirc).activity
      ∧ (step s dt sinDay sinCirc).activity ≤ 1)
    ∧ (0 ≤ (step s dt sinDay sinCirc).fan_level
      ∧ (step s dt sinDay sinCirc).fan_level ≤ 100)
    ∧ (0 ≤ (step s dt sinDay sinCirc).heater_level
      ∧ (step s dt sinDay sinCirc).heater_level ≤ 100)
    ∧ (0 ≤ (step s dt sinDay sinCirc).inlet_open_pct
      ∧ (step s dt sinDay sinCirc).inlet_open_pct ≤ 100)
    ∧ (0 ≤ (step s dt sinDay sinCirc).light_level_pct
      ∧ (step s dt sinDay sinCirc).light_level_pct ≤ 100)
    ∧ (0 ≤ (step s dt sinDay sinCirc).fan_level_command
      ∧ (step s dt sinDay sinCirc).fan_level_command ≤ 100)
    ∧ (0 ≤ (step s dt sinDay sinCirc).heater_level_command
      ∧ (step s dt sinDay sinCirc).heater_level_command ≤ 100)
    ∧ (0 ≤ (step s dt sinDay sinCirc).inlet_open_pct_command
      ∧ (step s dt sinDay sinCirc).inlet_open_pct_command ≤ 100)
    ∧ (0 ≤ (step s dt sinDay sinCirc).light_level_pct_command
      ∧ (step s dt sinDay sinCirc).light_level_pct_command ≤ 100) := by
  have h1040 : (10:ℚ) ≤ 40 := by norm_num
  have h4006000 : (400:ℚ) ≤ 6000 := by norm_num
  have h0200 : (0:ℚ) ≤ 200 := by norm_num
  have h01 : (0:ℚ) ≤ 1 := by norm_num
  have h0100 : (0:ℚ) ≤ 100 := by norm_num
  have htemp : ∃ x, (step s dt sinDay sinCirc).temperature_c = clamp x 10 40 := ⟨_, rfl⟩
  have hco2 : ∃ x, (step s dt sinDay sinCirc).co2_ppm = clamp x 400 6000 := ⟨_, rfl⟩
  have hnh3 : ∃ x, (step s dt sinDay sinCirc).nh3_ppm = clamp x 0 200 := ⟨_, rfl⟩
  have hact : ∃ x, (step s dt sinDay sinCirc).activity = clamp x 0 1 := ⟨_, rfl⟩
  have hfan : ∃ x, (step s dt sinDay sinCirc).fan_level = clamp x 0 100 := ⟨_, rfl⟩
  have hheat : ∃ x, (step s dt sinDay sinCirc).heater_level = clamp x 0 100 := ⟨_, rfl⟩
  have hinlet : ∃ x, (step s dt sinDay sinCirc).inlet_open_pct = clamp x 0 100 := ⟨_, rfl⟩
  have hlight : ∃ x, (step s dt sinDay sinCirc).light_level_pct = clamp x 0 100 := ⟨_, rfl⟩
  have hfanc : ∃ x, (step s dt sinDay sinCirc).fan_level_command = clamp x 0 100 := ⟨_, rfl⟩
  have hheatc : ∃ x, (step s dt sinDay sinCirc).heater_level_command = clamp x 0 100 := ⟨_, rfl⟩
  have hinletc : ∃ x, (step s dt sinDay sinCirc).inlet_open_pct_command = clamp x 0 100 :=
    ⟨_, rfl⟩
  have hlightc : ∃ x, (step s dt sinDay sinCirc).light_level_pct_command = clamp x 0 100 :=
    ⟨_, rfl⟩
  have hfw : ∃ X, (step s dt sinDay sinCirc).feed_kg = (feedWaterPhase X dt).feed_kg
      ∧ (step s dt sinDay sinCirc).water_l = (feedWaterPhase X dt).water_l
      ∧ X.feed_kg = s.feed_kg ∧ X.water_l = s.water_l
      ∧ X.activity = s.activity ∧ X.bird_count = s.bird_count :=
    ⟨_, rfl, rfl, rfl, rfl, rfl, rfl⟩
  obtain ⟨X, hXf, hXw, hXfk, hXwl, hXa, hXb⟩ := hfw
  have hXbounds := feedWaterPhase_bounds X dt
    (by rw [hXfk]; exact hF.1) (by rw [hXfk]; exact hF.2)
    (by rw [hXwl]; exact hW.1) (by rw [hXwl]; exact hW.2)
    (by rw [hXa]; exact hA.1) (by rw [hXb]; exact hb) hdt
  obtain ⟨xt, ht⟩ := htemp
  obtain ⟨xc, hc⟩ := hco2
  obtain ⟨xn, hn⟩ := hnh3
  obtain ⟨xa, ha⟩ := hact
  obtain ⟨x1, h1⟩ := hfan
  obtain ⟨x2, h2⟩ := hheat
  obtain ⟨x3, h3⟩ := hinlet
  obtain ⟨x4, h4⟩ := hlight
  obtain ⟨x5, h5⟩ := hfanc
  obtain ⟨x6, h6⟩ := hheatc
  obtain ⟨x7, h7⟩ := hinletc
  obtain ⟨x8, h8⟩ := hlightc
  refine ⟨⟨?_, ?_⟩, ⟨?_, ?_⟩, ⟨?_, ?_⟩, ⟨?_, ?_⟩, ⟨?_, ?_⟩, ⟨?_, ?_⟩, ⟨?_, ?_⟩,
    ⟨?_, ?_⟩, ⟨?_, ?_⟩, ⟨?_, ?_⟩, ⟨?_, ?_⟩, ⟨?_, ?_⟩, ⟨?_, ?_⟩, ⟨?_, ?_⟩⟩
  · rw [ht]; exact le_clamp _ _ _
  · rw [ht]; exact clamp_le h1040
  · rw [hc]; exact le_clamp _ _ _
  · rw [hc]; exact clamp_le h4006000
  · rw [hn]; exact le_clamp _ _ _
  · rw [hn]; exact clamp_le h0200
  · rw [hXf]; exact hXbounds.1.1
  · rw [hXf]; exact hXbounds.1.2
  · rw [hXw]; exact hXbounds.2.1
  · rw [hXw]; exact hXbounds.2.2
  · rw [ha]; exact le_clamp _ _ _
  · rw [ha]; exact clamp_le h01
  · rw [h1]; exact le_clamp _ _ _
  · rw [h1]; exact clamp_le h0100
  · rw [h2]; exact le_clamp _ _ _
  · rw [h2]; exact clamp_le h0100
  · rw [h3]; exact le_clamp _ _ _
  · rw [h3]; exact clamp_le h0100
  · rw [h4]; exact le_clamp _ _ _
  · rw [h4]; exact clamp_le h0100
  · rw [h5]; exact le_clamp _ _ _
  · rw [h5]; exact clamp_le h0100
  · rw [h6]; exact le_clamp _ _ _
  · rw [h6]; exact clamp_le h0100
  · rw [h7]; exact le_clamp _ _ _
  · rw [h7]; exact clamp_le h0100
  · rw [h8]; exact le_clamp _ _ _
  · rw [h8]; exact clamp_le h0100

/-- The default initial `EnvironmentState` of the dataclass (field
defaults of model.py lines 119–161 with the default env values). -/
def exampleEnvState : EnvironmentState where
  temperature_c := 23
  co2_ppm := 1500
  nh3_ppm := 12
  feed_kg := 20
  water_l := 15
  activity := 2/5
  fan_level := 0
  fan_level_command := 0
  fan_on := false
  fan_last_switch_s := 0
  fan_cmd_last_s := 0
  heater_level := 0
  heater_level_command := 0
  heater_cmd_last_s := 0
  inlet_open_pct := 30
  inlet_open_pct_command := 30
  inlet_cmd_last_s := 0
  light_level_pct := 30
  light_level_pct_command := 30
  light_cmd_last_s := 0
  feed_refill_on := false
  feed_refill_remaining_s := 0
  water_refill_on := false
  water_refill_remaining_s := 0
  auto_control := true
  sim_time_s := 0
  bird_count := 2000
  barn_volume_m3 := 600

/-- C4 witness: the invariants applied to one tick of the default initial
state with dt = 1 s and both sine inputs 0. -/
theorem c4_step_state_invariants_witness :
    (0:ℚ) ≤ 1
    ∧ (10 ≤ (step exampleEnvState 1 0 0).temperature_c
        ∧ (step exampleEnvState 1 0 0).temperature_c ≤ 40) :=
  ⟨by norm_num,
    (c4_step_state_invariants exampleEnvState 1 0 0
      (by norm_num [exampleEnvState])
      (by norm_num [exampleEnvState])
      (by norm_num [exampleEnvState])
      (by norm_num [exampleEnvState, FEED_HOPPER_CAPACITY_KG])
      (by norm_num [exampleEnvState, WATER_TANK_CAPACITY_L])
      (by norm_num [exampleEnvState])
      (by norm_num [exampleEnvState])
      (by norm_num [exampleEnvState])
      (by norm_num [exampleEnvState])
      (by norm_num [exampleEnvState])
      (by norm_num [exampleEnvState])
      (by norm_num [exampleEnvState])
      (by norm_num [exampleEnvState])
      (by norm_num [exampleEnvState])
      (by norm_num [exampleEnvState])
      (by norm_num)).1⟩

end Poultry
